import Mathlib

/-!
Verification of the gesture detection and action-dispatch pipeline of a
browser-based, gesture-controlled presentation player.

The repository contains two variants of the webcam handler component:
a local-model variant whose `detectionLoop` runs on every animation frame
with a 150 ms throttle and a 1000 ms action cooldown, and a remote-style
variant whose `analyzeLoop` polls on a dynamic multi-second interval with
a 2500 ms cooldown and exponential backoff on quota errors.  Both are
embedded below, together with the classifier post-processing
(`identifyGesture` in services/geminiService.ts) and the application-level
action handler (`handleGesture` and the keyboard handler in App.tsx).

Machine integers do not occur: all timestamps are modelled as `Int`
(milliseconds since epoch) and confidences and coordinates as `Rat`.
-/

/-- Enumeration `GestureAction` from src/types.ts. -/
inductive GestureAction where
  | NEXT
  | PREV
  | PAUSE
  | VOL_UP
  | VOL_DOWN
  | CHANGE_THEME
  | ZOOM_IN
  | ZOOM_OUT
  | SPACE
  | NONE
deriving DecidableEq, Repr

/-- Enumeration `HandGesture` from src/types.ts. -/
inductive HandGesture where
  | THUMB_UP
  | THUMB_DOWN
  | OPEN_PALM
  | VICTORY
  | CLOSED_FIST
  | POINTING_UP
  | I_LOVE_YOU
  | NONE
deriving DecidableEq, Repr

/-- `BoundingBox` from src/types.ts: normalized coordinates as rationals. -/
structure BoundingBox where
  ymin : Rat
  xmin : Rat
  ymax : Rat
  xmax : Rat
deriving DecidableEq, Repr

/-- `DetectionResult` from src/types.ts (current variant, gesture-labelled):
`{ gesture, confidence, boundingBox?, error? }`.  The optional string
`error` takes the literal values used by the code ("LOADING",
"INIT_FAILED"). -/
structure DetectionResult where
  gesture : HandGesture
  confidence : Rat
  boundingBox : Option BoundingBox := none
  error : Option String := none
deriving DecidableEq, Repr

/-- `DetectionResult` of the second types.ts variant (action-labelled), the
shape returned by `identifyGesture` in src/services/geminiService.ts and
consumed by the `analyzeLoop` variant: `{ action, confidence, boundingBox?,
error? }` with `error` taking e.g. "QUOTA_EXCEEDED". -/
structure DetectionResultA where
  action : GestureAction
  confidence : Rat
  boundingBox : Option BoundingBox := none
  error : Option String := none
deriving DecidableEq, Repr

/-- Status field of the local-variant `DetectionState`
(src/components/WebcamHandler.tsx, first variant, line 16). -/
inductive DLStatus where
  | waiting
  | success
  | error
  | loading
deriving DecidableEq, Repr

/-- The UI-facing `DetectionState` of the local variant
(src/components/WebcamHandler.tsx lines 12-17). -/
structure DLDetectionState where
  gesture : HandGesture
  action : GestureAction
  label : String
  status : DLStatus
deriving DecidableEq, Repr

/-- The mutable state of the local-variant webcam handler that the
detection loop reads and writes: the `DetectionState` and bounding box
React state plus the refs `actionCooldownRef` (called `cooldownUntil`
here, a timestamp) and `lastGestureRef`. -/
structure WHState where
  detection : DLDetectionState
  boundingBox : Option BoundingBox
  cooldownUntil : Int
  lastGesture : HandGesture
deriving DecidableEq, Repr

/-- The string value of a `GestureAction` enum member, as used by the code
when it stores the action into the displayed label
(WebcamHandler.tsx line 146, `label: mappedAction`). -/
def actionLabel : GestureAction → String
  | .NEXT => "NEXT"
  | .PREV => "PREV"
  | .PAUSE => "PAUSE"
  | .VOL_UP => "VOL_UP"
  | .VOL_DOWN => "VOL_DOWN"
  | .CHANGE_THEME => "CHANGE_THEME"
  | .ZOOM_IN => "ZOOM_IN"
  | .ZOOM_OUT => "ZOOM_OUT"
  | .SPACE => "SPACE"
  | .NONE => "NONE"

/-- `result.gesture.replace(&apos;_&apos;,&apos; &apos;)` of WebcamHandler.tsx
line 143: the gesture enum string with its first underscore replaced by a
space (JS `String.replace` with a string pattern replaces only the first
occurrence). -/
def gestureNameOf : HandGesture → String
  | .THUMB_UP => "Thumb Up"
  | .THUMB_DOWN => "Thumb Down"
  | .OPEN_PALM => "Open Palm"
  | .VICTORY => "Victory"
  | .CLOSED_FIST => "Closed Fist"
  | .POINTING_UP => "Pointing Up"
  | .I_LOVE_YOU => "ILoveYou"
  | .NONE => "None"

/-- `gestureMappings[result.gesture] || GestureAction.NONE`
(WebcamHandler.tsx line 142).  A possibly partial or corrupted mapping is
an `Option`-valued function; a missing entry (JS `undefined`) falls back
to `GestureAction.NONE`.  All present enum values are non-empty strings,
hence truthy, so the JS `||` fallback fires exactly on absence. -/
def lookupMapping (m : HandGesture → Option GestureAction) (g : HandGesture) : GestureAction :=
  (m g).getD GestureAction.NONE

/-- The result-handling continuation of `detectionLoop`
(src/components/WebcamHandler.tsx lines 133-165), entered when the awaited
`identifyGesture` call resolves.  `mounted` is the value of
`isMountedRef.current` at resumption time (set to false by the unmount
cleanup at lines 47-50); `now` is the `Date.now()` captured at line 125
before the call.  Returns the new handler state and the action passed to
`onGestureDetected`, if any. -/
def detectionLoopStep (m : HandGesture → Option GestureAction) (mounted : Bool)
    (now : Int) (r : DetectionResult) (s : WHState) : WHState × Option GestureAction :=
  if !mounted then (s, none)
  else if r.error = some "LOADING" then
    ({ s with detection := { s.detection with status := .loading, label := "..." } }, none)
  else if r.error = some "INIT_FAILED" then
    ({ s with detection := { s.detection with status := .error, label := "Err" } }, none)
  else if now < s.cooldownUntil then (s, none)
  else if r.gesture ≠ HandGesture.NONE then
    let mappedAction := lookupMapping m r.gesture
    if mappedAction ≠ GestureAction.NONE then
      let det : DLDetectionState :=
        { gesture := r.gesture, action := mappedAction,
          label := actionLabel mappedAction, status := .success }
      let bb := if r.boundingBox.isSome then r.boundingBox else s.boundingBox
      if r.gesture ≠ s.lastGesture ∨ s.cooldownUntil < now then
        ({ detection := det, boundingBox := bb,
           cooldownUntil := now + 1000, lastGesture := r.gesture }, some mappedAction)
      else
        ({ s with detection := det, boundingBox := bb }, none)
    else
      ({ s with
         detection := { s.detection with label := gestureNameOf r.gesture, status := .waiting },
         boundingBox := none }, none)
  else
    ({ s with
       detection := { s.detection with label := "جاهز", status := .waiting },
       boundingBox := none,
       lastGesture := if 500 < now - s.cooldownUntil then HandGesture.NONE else s.lastGesture }, none)

/-- Processing a sequence of timed classifier results through the local
detection loop (each result is handled by `detectionLoopStep` with the
component mounted), collecting every action dispatched to
`onGestureDetected` in order. -/
def runDetect (m : HandGesture → Option GestureAction) :
    WHState → List (Int × DetectionResult) → WHState × List GestureAction
  | s, [] => (s, [])
  | s, (t, r) :: es =>
    let p := detectionLoopStep m true t r s
    let q := runDetect m p.1 es
    (q.1, p.2.toList ++ q.2)

/-- Status field of the remote-variant `DetectionState`
(src/components/WebcamHandler.tsx, second variant, line 264). -/
inductive ALStatus where
  | waiting
  | success
  | error
  | rate_limit
  | processing
deriving DecidableEq, Repr

/-- The UI-facing `DetectionState` of the remote (analyzeLoop) variant
(src/components/WebcamHandler.tsx lines 261-265). -/
structure ALDetectionState where
  action : GestureAction
  label : String
  status : ALStatus
deriving DecidableEq, Repr

/-- The mutable state of the remote-variant webcam handler:
`DetectionState` and bounding box React state plus `delayRef` (the dynamic
polling delay, initialised to 6000 ms) and `lastActionTimeRef`. -/
structure ALState where
  detection : ALDetectionState
  boundingBox : Option BoundingBox
  delay : Int
  lastActionTime : Int
deriving DecidableEq, Repr

/-- The friendly label the analyzeLoop switch assigns to each dispatched
action (WebcamHandler.tsx lines 480-491).  `NONE` hits the `default`
branch of the switch. -/
def labelOfAction : GestureAction → String
  | .NEXT => "التالي (👍)"
  | .PREV => "السابق (👎)"
  | .PAUSE => "توقف (✋)"
  | .VOL_UP => "رفع الصوت (✌️)"
  | .VOL_DOWN => "خفض الصوت (✊)"
  | .CHANGE_THEME => "النمط (☝️)"
  | .ZOOM_IN => "تكبير (👌)"
  | .ZOOM_OUT => "تصغير (🤙)"
  | .SPACE => "مسافة (3 أصابع)"
  | .NONE => "تم التعرف"

/-- The result-handling section of `analyzeLoop`
(src/components/WebcamHandler.tsx lines 461-531), entered when the awaited
`identifyGesture` call resolves, including the `finally` update of
`delayRef`.  `now` is the `Date.now()` read at line 474.  The source
performs no liveness or mounted check after the `await`, so the same
computation is applied whenever the call resolves, including after the
detector has been deactivated.  Returns the new handler state and the
action passed to `onGestureDetected`, if any. -/
def analyzeLoopStep (now : Int) (r : DetectionResultA) (s : ALState) :
    ALState × Option GestureAction :=
  if r.error = some "QUOTA_EXCEEDED" then
    ({ s with
       detection := { action := .NONE, label := "⚠️ حد الاستخدام (انتظار)", status := .rate_limit },
       delay := min (s.delay * 2) 30000 }, none)
  else
    let isCoolingDown := now - s.lastActionTime < 2500
    if r.action ≠ GestureAction.NONE ∧ ¬ isCoolingDown then
      ({ s with
         detection := { action := r.action, label := labelOfAction r.action, status := .success },
         boundingBox := if r.boundingBox.isSome then r.boundingBox else s.boundingBox,
         delay := 6000,
         lastActionTime := now }, some r.action)
    else
      ({ s with
         detection := { s.detection with
                        label := if isCoolingDown then "انتظار..." else "جاهز...",
                        status := .waiting },
         delay := 6000 }, none)

/-- Processing a sequence of timed classifier results through the remote
analyze loop, collecting every dispatched action in order. -/
def runAnalyze : ALState → List (Int × DetectionResultA) → ALState × List GestureAction
  | s, [] => (s, [])
  | s, (t, r) :: es =>
    let p := analyzeLoopStep t r s
    let q := runAnalyze p.1 es
    (q.1, p.2.toList ++ q.2)

/-- One gesture category of a MediaPipe recognizer result:
`{ categoryName, score }`. -/
structure Category where
  categoryName : String
  score : Rat
deriving DecidableEq, Repr

/-- One normalized hand landmark: `{ x, y }` (the code only reads `x` and
`y`). -/
structure Landmark where
  x : Rat
  y : Rat
deriving DecidableEq, Repr

/-- The part of a MediaPipe `recognizeForVideo` result that
`identifyGesture` reads: `results.gestures` (a list of category lists,
one per hand, best first) and `results.landmarks` (one landmark list per
hand). -/
structure RecognizerResults where
  gestures : List (List Category)
  landmarks : List (List Landmark)
deriving DecidableEq, Repr

/-- The gesture-name-to-action switch of `identifyGesture`
(src/services/geminiService.ts lines 91-100). -/
def actionOfName : String → GestureAction
  | "Thumb_Up" => .NEXT
  | "Thumb_Down" => .PREV
  | "Open_Palm" => .PAUSE
  | "Victory" => .VOL_UP
  | "Closed_Fist" => .VOL_DOWN
  | "Pointing_Up" => .ZOOM_IN
  | "ILoveYou" => .ZOOM_OUT
  | _ => .NONE

/-- Bounding box from a hand landmark list
(src/services/geminiService.ts lines 106-116): componentwise `Math.min`
and `Math.max` over the landmark coordinates.  `Math.min` of an empty
spread would be `Infinity`, which has no rational representation; the
recognizer emits a fixed 21 landmarks for every detected hand, so the
empty list (modelled here as producing no box) is unreachable. -/
def bboxOfLandmarks : List Landmark → Option BoundingBox
  | [] => none
  | p :: ps =>
    some { xmin := ps.foldl (fun acc q => min acc q.x) p.x,
           xmax := ps.foldl (fun acc q => max acc q.x) p.x,
           ymin := ps.foldl (fun acc q => min acc q.y) p.y,
           ymax := ps.foldl (fun acc q => max acc q.y) p.y }

/-- The recognition-result post-processing of `identifyGesture`
(src/services/geminiService.ts lines 81-125): take the top category of the
first hand, map its name to an action, suppress detections whose score is
below the 0.5 threshold (returning a NONE-action result carrying the
score), and otherwise return the action together with the score and the
bounding box computed from the first landmark list when present.  The
model-loading states handled earlier in the function (lines 64-78) return
LOADING or INIT_FAILED without invoking the recognizer and are not part of
this post-processing. -/
def identifyGestureCore (res : RecognizerResults) : DetectionResultA :=
  match res.gestures with
  | (c :: _) :: _ =>
    if c.score < 1/2 then
      { action := .NONE, confidence := c.score, boundingBox := none, error := none }
    else
      { action := actionOfName c.categoryName,
        confidence := c.score,
        boundingBox := match res.landmarks.head? with
                       | some pts => bboxOfLandmarks pts
                       | none => none,
        error := none }
  | _ => { action := .NONE, confidence := 0, boundingBox := none, error := none }

/-- The tick throttle of `detectionLoop`
(src/components/WebcamHandler.tsx lines 125-127): given the value of
`lastDetectionTimeRef` and the `Date.now()` timestamps of successive
animation-frame ticks, the times at which the loop proceeds past the
throttle and invokes `identifyGesture` (line 132).  A tick closer than
150 ms to the last processed tick returns without invoking the
classifier; nothing in the loop checks whether a previously issued call
is still outstanding. -/
def issueTimes : Int → List Int → List Int
  | _, [] => []
  | last, t :: ts => if t - last < 150 then issueTimes last ts else t :: issueTimes t ts

/-- Successive elements of the list each exceed the running predecessor by
at least 150 (the minimum spacing the throttle enforces between classifier
invocations). -/
def spacedB : Int → List Int → Bool
  | _, [] => true
  | last, t :: ts => decide (150 ≤ t - last) && spacedB t ts

/-- No two consecutive invocation times overlap when each classifier call
takes `dur` milliseconds to resolve: each call must have completed before
the next one starts. -/
def overlapFreeB (dur : Int) : List Int → Bool
  | t1 :: t2 :: ts => decide (t1 + dur ≤ t2) && overlapFreeB dur (t2 :: ts)
  | _ => true

/-- The player state of the application component (src/App.tsx lines
11-22) that the gesture and keyboard handlers read and write.
`numSlides` is `slides.length`; the slide list itself is not mutated by
the handlers. -/
structure AppState where
  currentSlideIndex : Int
  numSlides : Int
  isPaused : Bool
  volume : Int
  showVolume : Bool
  isDarkMode : Bool
  zoomLevel : Rat
  isFullScreenMode : Bool
deriving DecidableEq, Repr

/-- `nextSlide` (src/App.tsx lines 123-125):
`Math.min(prev + 1, slides.length - 1)`. -/
def nextSlide (s : AppState) : AppState :=
  { s with currentSlideIndex := min (s.currentSlideIndex + 1) (s.numSlides - 1) }

/-- `prevSlide` (src/App.tsx lines 127-129): `Math.max(prev - 1, 0)`. -/
def prevSlide (s : AppState) : AppState :=
  { s with currentSlideIndex := max (s.currentSlideIndex - 1) 0 }

/-- `handleVolume` (src/App.tsx lines 131-138): step the volume by 10
clamped to [0, 100] and show the volume overlay (the delayed hide is a
timer side effect outside this state transition). -/
def handleVolume (up : Bool) (s : AppState) : AppState :=
  { s with
    volume := if up then min (s.volume + 10) 100 else max (s.volume - 10) 0,
    showVolume := true }

/-- `toggleTheme` (src/App.tsx line 107). -/
def toggleTheme (s : AppState) : AppState :=
  { s with isDarkMode := !s.isDarkMode }

/-- `toggleFullScreen` (src/App.tsx lines 109-115) as reflected into
`isFullScreenMode` by the fullscreenchange listener. -/
def toggleFullScreen (s : AppState) : AppState :=
  { s with isFullScreenMode := !s.isFullScreenMode }

/-- `handleGesture` (src/App.tsx lines 141-163): the action callback the
webcam handler dispatches into.  A `PAUSE` action sets the paused flag to
true and returns; every other action is dropped while paused; otherwise
the action is routed to the corresponding state update. -/
def handleGesture (action : GestureAction) (s : AppState) : AppState :=
  if action = GestureAction.PAUSE then { s with isPaused := true }
  else if s.isPaused then s
  else
    match action with
    | .NEXT => nextSlide s
    | .PREV => prevSlide s
    | .SPACE => nextSlide s
    | .VOL_UP => handleVolume true s
    | .VOL_DOWN => handleVolume false s
    | .CHANGE_THEME => toggleTheme s
    | .ZOOM_IN => { s with zoomLevel := if s.zoomLevel ≥ 5/2 then 1 else s.zoomLevel + 1/2 }
    | .ZOOM_OUT => { s with zoomLevel := max 1 (s.zoomLevel - 1/2) }
    | _ => s

/-- `handleKeyDown` (src/App.tsx lines 167-191): `f`/`F` toggles
fullscreen first; while paused every key except Escape is ignored;
navigation keys route to `nextSlide`/`prevSlide`; Escape while paused
resumes. -/
def handleKeyDown (key : String) (s : AppState) : AppState :=
  if key = "f" ∨ key = "F" then toggleFullScreen s
  else if s.isPaused ∧ key ≠ "Escape" then s
  else
    match key with
    | "ArrowRight" => nextSlide s
    | "ArrowDown" => nextSlide s
    | " " => nextSlide s
    | "PageDown" => nextSlide s
    | "ArrowLeft" => prevSlide s
    | "ArrowUp" => prevSlide s
    | "PageUp" => prevSlide s
    | "Escape" => if s.isPaused then { s with isPaused := false } else s
    | _ => s

/-- Folding a list of dispatched actions through `handleGesture`. -/
def runGestures (s : AppState) (acts : List GestureAction) : AppState :=
  acts.foldl (fun st a => handleGesture a st) s

/-- The default gesture-to-action mapping of the application (matching the
assignments of the classifier switch in geminiService.ts), used as a
concrete mapping in witnesses. -/
def sampleMapping : HandGesture → Option GestureAction
  | .THUMB_UP => some .NEXT
  | .THUMB_DOWN => some .PREV
  | .OPEN_PALM => some .PAUSE
  | .VICTORY => some .VOL_UP
  | .CLOSED_FIST => some .VOL_DOWN
  | .POINTING_UP => some .ZOOM_IN
  | .I_LOVE_YOU => some .ZOOM_OUT
  | .NONE => some .NONE

/-- The initial local-variant handler state (WebcamHandler.tsx lines
24-34): loading detection state, no box, zero cooldown ref, no last
gesture. -/
def freshWHState : WHState :=
  { detection := { gesture := .NONE, action := .NONE, label := "تحميل...", status := .loading },
    boundingBox := none, cooldownUntil := 0, lastGesture := .NONE }

lemma detectionLoopStep_cooldown_skip (m : HandGesture → Option GestureAction)
    (now : Int) (r : DetectionResult) (s : WHState)
    (hr : r.error = none) (h : now < s.cooldownUntil) :
    detectionLoopStep m true now r s = (s, none) := by
  simp [detectionLoopStep, hr, h]

lemma detectionLoopStep_fire (m : HandGesture → Option GestureAction)
    (now : Int) (r : DetectionResult) (s : WHState)
    (hr : r.error = none) (hg : r.gesture ≠ HandGesture.NONE)
    (ha : lookupMapping m r.gesture ≠ GestureAction.NONE)
    (hc : s.cooldownUntil ≤ now)
    (hf : r.gesture ≠ s.lastGesture ∨ s.cooldownUntil < now) :
    (detectionLoopStep m true now r s).2 = some (lookupMapping m r.gesture) ∧
    (detectionLoopStep m true now r s).1.cooldownUntil = now + 1000 ∧
    (detectionLoopStep m true now r s).1.lastGesture = r.gesture := by
  simp [detectionLoopStep, hr, hg, ha, not_lt.mpr hc, hf]

lemma runDetect_skip (m : HandGesture → Option GestureAction)
    (r : DetectionResult) (hr : r.error = none) :
    ∀ (ts : List Int) (s : WHState), (∀ t ∈ ts, t < s.cooldownUntil) →
      runDetect m s (ts.map (fun t => (t, r))) = (s, []) := by
  intro ts
  induction ts with
  | nil => intro s _; simp [runDetect]
  | cons t ts ih =>
    intro s h
    have hs := detectionLoopStep_cooldown_skip m t r s hr (h t (by simp))
    simp only [List.map_cons, runDetect, hs]
    have := ih s (fun u hu => h u (by simp [hu]))
    simp [this]

/-- C1: for a run of identical qualifying detections whose times all fall
inside one cooldown window, the detection loop dispatches exactly once:
the first qualifying detection dispatches its mapped action and sets the
cooldown reference to its time plus 1000 ms, every later identical
detection processed before that deadline dispatches nothing and leaves
the state untouched, and an identical detection processed after the
deadline dispatches again. -/
theorem detectionLoop_cooldown_once
    (m : HandGesture → Option GestureAction) (s : WHState) (r : DetectionResult)
    (a : GestureAction) (t0 t' : Int) (ts : List Int)
    (hr : r.error = none) (hg : r.gesture ≠ HandGesture.NONE)
    (hm : lookupMapping m r.gesture = a) (ha : a ≠ GestureAction.NONE)
    (hc : s.cooldownUntil ≤ t0)
    (hfirst : r.gesture ≠ s.lastGesture ∨ s.cooldownUntil < t0)
    (hts : ∀ t ∈ ts, t < t0 + 1000)
    (ht' : t0 + 1000 < t') :
    (runDetect m s ((t0, r) :: ts.map (fun t => (t, r)))).2 = [a] ∧
    (runDetect m s ((t0, r) :: ts.map (fun t => (t, r)))).1.cooldownUntil = t0 + 1000 ∧
    (detectionLoopStep m true t' r
        (runDetect m s ((t0, r) :: ts.map (fun t => (t, r)))).1).2 = some a := by
  have ha' : lookupMapping m r.gesture ≠ GestureAction.NONE := hm ▸ ha
  obtain ⟨h2, hcd, _⟩ := detectionLoopStep_fire m t0 r s hr hg ha' hc hfirst
  have hskip := runDetect_skip m r hr ts (detectionLoopStep m true t0 r s).1
    (fun t htm => hcd ▸ hts t htm)
  have hrun : runDetect m s ((t0, r) :: ts.map (fun t => (t, r)))
      = ((detectionLoopStep m true t0 r s).1, [a]) := by
    simp [runDetect, hskip, h2, hm]
  refine ⟨by simp [hrun], by simp [hrun, hcd], ?_⟩
  rw [hrun]
  have hc' : (detectionLoopStep m true t0 r s).1.cooldownUntil ≤ t' := by
    rw [hcd]; exact le_of_lt ht'
  have hf' : r.gesture ≠ (detectionLoopStep m true t0 r s).1.lastGesture ∨
      (detectionLoopStep m true t0 r s).1.cooldownUntil < t' := Or.inr (by rw [hcd]; exact ht')
  obtain ⟨h2', _, _⟩ := detectionLoopStep_fire m t' r (detectionLoopStep m true t0 r s).1
    hr hg ha' hc' hf'
  rw [h2', hm]

/-- Witness for C1 at the spec example: NEXT-mapped thumb-up detections
at t = 0, 100, 200, 900 produce exactly one dispatch, and one at t = 1050
dispatches a second time. -/
theorem detectionLoop_cooldown_once_witness :
    (runDetect sampleMapping freshWHState
        ((0, ({ gesture := .THUMB_UP, confidence := 9/10 } : DetectionResult)) ::
          [100, 200, 900].map
            (fun t => (t, ({ gesture := .THUMB_UP, confidence := 9/10 } : DetectionResult))))).2
      = [GestureAction.NEXT] ∧
    (runDetect sampleMapping freshWHState
        ((0, ({ gesture := .THUMB_UP, confidence := 9/10 } : DetectionResult)) ::
          [100, 200, 900].map
            (fun t => (t, ({ gesture := .THUMB_UP, confidence := 9/10 } : DetectionResult))))).1.cooldownUntil
      = 0 + 1000 ∧
    (detectionLoopStep sampleMapping true 1050
        ({ gesture := .THUMB_UP, confidence := 9/10 } : DetectionResult)
        (runDetect sampleMapping freshWHState
          ((0, ({ gesture := .THUMB_UP, confidence := 9/10 } : DetectionResult)) ::
            [100, 200, 900].map
              (fun t => (t, ({ gesture := .THUMB_UP, confidence := 9/10 } : DetectionResult))))).1).2
      = some GestureAction.NEXT :=
  detectionLoop_cooldown_once sampleMapping freshWHState
    { gesture := .THUMB_UP, confidence := 9/10 } GestureAction.NEXT 0 1050 [100, 200, 900]
    rfl (by decide) (by decide) (by decide) (by decide) (Or.inl (by decide))
    (by decide) (by decide)

/-- The local-variant handler state right after a NEXT dispatch fired at
t = 0: success detection state, cooldown reference at 1000, last gesture
thumb-up. -/
def afterNextWHState : WHState :=
  { detection := { gesture := .THUMB_UP, action := .NEXT, label := "NEXT", status := .success },
    boundingBox := none, cooldownUntil := 1000, lastGesture := .THUMB_UP }

/-- The remote-variant handler state right after a NEXT dispatch fired at
t = 0. -/
def afterNextALState : ALState :=
  { detection := { action := .NEXT, label := labelOfAction .NEXT, status := .success },
    boundingBox := none, delay := 6000, lastActionTime := 0 }

/-- C2: evaluation at the failing input.  After a NEXT dispatch at t = 0
(cooldown until 1000), a qualifying thumb-down detection — whose mapped
action PREV differs from the last fired one — processed at t = 200 is
dropped by the early cooldown return (WebcamHandler.tsx line 138) before
the changed-gesture condition of line 150 is ever reached: the state is
unchanged and the callback is not invoked.  The remote analyzeLoop
likewise suppresses the changed action inside its 2500 ms cooldown
(lines 475-477).  This contradicts the code's own comment ("Trigger
action if gesture changed or cooldown passed") and the spec. -/
theorem detectionLoop_changed_action_suppressed :
    HandGesture.THUMB_DOWN ≠ afterNextWHState.lastGesture ∧
    lookupMapping sampleMapping HandGesture.THUMB_DOWN = GestureAction.PREV ∧
    (200 : Int) < afterNextWHState.cooldownUntil ∧
    detectionLoopStep sampleMapping true 200
      ({ gesture := .THUMB_DOWN, confidence := 9/10 } : DetectionResult) afterNextWHState
      = (afterNextWHState, none) ∧
    (analyzeLoopStep 200 ({ action := .PREV, confidence := 9/10 } : DetectionResultA)
        afterNextALState).2 = none := by
  decide

lemma analyzeLoopStep_none_action (now : Int) (r : DetectionResultA) (s : ALState)
    (h : r.action = GestureAction.NONE) : (analyzeLoopStep now r s).2 = none := by
  by_cases hq : r.error = some "QUOTA_EXCEEDED" <;> simp [analyzeLoopStep, hq, h]

/-- C3: if the top recognized category scores strictly below the 0.5
threshold of identifyGesture, the returned result carries the NONE action
(whatever the label) together with the raw score — so the analyze loop
dispatches nothing on it, exactly as for a none detection — while a score
of exactly 0.5 passes the threshold and yields the label's mapped
action. -/
theorem identifyGesture_threshold
    (res : RecognizerResults) (c : Category) (cs : List Category) (gs : List (List Category))
    (hres : res.gestures = (c :: cs) :: gs) :
    (c.score < 1/2 →
       (identifyGestureCore res).action = GestureAction.NONE ∧
       (identifyGestureCore res).confidence = c.score ∧
       ∀ (now : Int) (s : ALState), (analyzeLoopStep now (identifyGestureCore res) s).2 = none) ∧
    (1/2 ≤ c.score → (identifyGestureCore res).action = actionOfName c.categoryName) := by
  obtain ⟨g, l⟩ := res
  simp only [RecognizerResults.mk.injEq] at hres
  subst hres
  constructor
  · intro hlt
    have h1 : identifyGestureCore { gestures := (c :: cs) :: gs, landmarks := l } =
        { action := GestureAction.NONE, confidence := c.score, boundingBox := none,
          error := none } := by
      dsimp only [identifyGestureCore]
      rw [if_pos hlt]
    refine ⟨by rw [h1], by rw [h1], ?_⟩
    intro now s
    exact analyzeLoopStep_none_action now _ s (by rw [h1])
  · intro hge
    dsimp only [identifyGestureCore]
    rw [if_neg (not_lt.mpr hge)]

/-- The initial remote-variant handler state (WebcamHandler.tsx lines
275-285). -/
def initALState : ALState :=
  { detection := { action := .NONE, label := "جاري الاستعداد...", status := .waiting },
    boundingBox := none, delay := 6000, lastActionTime := 0 }

/-- Witness for C3: a Victory detection at confidence 0.49 yields the
NONE action and no dispatch; a thumb-up detection at confidence exactly
0.5 yields NEXT. -/
theorem identifyGesture_threshold_witness :
    (identifyGestureCore { gestures := [[{ categoryName := "Victory", score := 49/100 }]],
                           landmarks := [] }).action = GestureAction.NONE ∧
    (identifyGestureCore { gestures := [[{ categoryName := "Victory", score := 49/100 }]],
                           landmarks := [] }).confidence = 49/100 ∧
    (analyzeLoopStep 5000
        (identifyGestureCore { gestures := [[{ categoryName := "Victory", score := 49/100 }]],
                               landmarks := [] }) initALState).2 = none ∧
    (identifyGestureCore { gestures := [[{ categoryName := "Thumb_Up", score := 1/2 }]],
                           landmarks := [] }).action = GestureAction.NEXT := by
  have h1 := (identifyGesture_threshold
    { gestures := [[{ categoryName := "Victory", score := 49/100 }]], landmarks := [] }
    { categoryName := "Victory", score := 49/100 } [] [] rfl).1 (by norm_num)
  have h2 := (identifyGesture_threshold
    { gestures := [[{ categoryName := "Thumb_Up", score := 1/2 }]], landmarks := [] }
    { categoryName := "Thumb_Up", score := 1/2 } [] [] rfl).2 (by norm_num)
  exact ⟨h1.1, h1.2.1, h1.2.2 5000 initALState, by simpa using h2⟩

lemma analyzeLoopStep_delay_bounds (now : Int) (r : DetectionResultA) (s : ALState)
    (hlo : 6000 ≤ s.delay) (hhi : s.delay ≤ 30000) :
    6000 ≤ (analyzeLoopStep now r s).1.delay ∧ (analyzeLoopStep now r s).1.delay ≤ 30000 := by
  by_cases hq : r.error = some "QUOTA_EXCEEDED"
  · simp only [analyzeLoopStep, hq, if_pos]
    constructor
    · exact le_min (by omega) (by norm_num)
    · exact min_le_right _ _
  · constructor <;>
      · simp only [analyzeLoopStep, if_neg hq]
        split <;> norm_num

/-- C4: on a QUOTA_EXCEEDED result the analyze loop doubles the polling
delay up to the 30000 ms cap and dispatches nothing; on any non-error
result the delay resets to the 6000 ms base; consequently every run that
starts with the delay inside [6000, 30000] (as the initial 6000 does)
keeps it inside [6000, 30000]. -/
theorem analyzeLoop_backoff :
    (∀ (now : Int) (r : DetectionResultA) (s : ALState),
        r.error = some "QUOTA_EXCEEDED" →
        (analyzeLoopStep now r s).1.delay = min (s.delay * 2) 30000 ∧
        (analyzeLoopStep now r s).2 = none) ∧
    (∀ (now : Int) (r : DetectionResultA) (s : ALState),
        r.error = none → (analyzeLoopStep now r s).1.delay = 6000) ∧
    (∀ (s : ALState) (evs : List (Int × DetectionResultA)),
        6000 ≤ s.delay → s.delay ≤ 30000 →
        6000 ≤ (runAnalyze s evs).1.delay ∧ (runAnalyze s evs).1.delay ≤ 30000) := by
  refine ⟨?_, ?_, ?_⟩
  · intro now r s hq
    simp [analyzeLoopStep, hq]
  · intro now r s he
    have hq : ¬(r.error = some "QUOTA_EXCEEDED") := by simp [he]
    simp only [analyzeLoopStep, if_neg hq]
    split <;> rfl
  · intro s evs
    induction evs generalizing s with
    | nil => intro hlo hhi; exact ⟨hlo, hhi⟩
    | cons e evs ih =>
      intro hlo hhi
      obtain ⟨hlo', hhi'⟩ := analyzeLoopStep_delay_bounds e.1 e.2 s hlo hhi
      have : runAnalyze s (e :: evs) = ((runAnalyze (analyzeLoopStep e.1 e.2 s).1 evs).1,
          (analyzeLoopStep e.1 e.2 s).2.toList ++ (runAnalyze (analyzeLoopStep e.1 e.2 s).1 evs).2) := by
        cases e; simp [runAnalyze]
      rw [this]
      exact ih (analyzeLoopStep e.1 e.2 s).1 hlo' hhi'

/-- Witness for C4: from the initial state a quota error doubles the delay
to 12000 with no dispatch, a non-error result resets a 24000 delay to
6000, and the run quota-quota-quota-success keeps the delay inside
[6000, 30000]. -/
theorem analyzeLoop_backoff_witness :
    ((analyzeLoopStep 0 ({ action := .NONE, confidence := 0, error := some "QUOTA_EXCEEDED" } : DetectionResultA)
        initALState).1.delay = min (initALState.delay * 2) 30000 ∧
      (analyzeLoopStep 0 ({ action := .NONE, confidence := 0, error := some "QUOTA_EXCEEDED" } : DetectionResultA)
        initALState).2 = none) ∧
    (analyzeLoopStep 0 ({ action := .NEXT, confidence := 9/10 } : DetectionResultA)
        { initALState with delay := 24000 }).1.delay = 6000 ∧
    (6000 ≤ (runAnalyze initALState
        [(0, { action := .NONE, confidence := 0, error := some "QUOTA_EXCEEDED" }),
         (6000, { action := .NONE, confidence := 0, error := some "QUOTA_EXCEEDED" }),
         (18000, { action := .NONE, confidence := 0, error := some "QUOTA_EXCEEDED" }),
         (42000, { action := .NEXT, confidence := 9/10 })]).1.delay ∧
      (runAnalyze initALState
        [(0, { action := .NONE, confidence := 0, error := some "QUOTA_EXCEEDED" }),
         (6000, { action := .NONE, confidence := 0, error := some "QUOTA_EXCEEDED" }),
         (18000, { action := .NONE, confidence := 0, error := some "QUOTA_EXCEEDED" }),
         (42000, { action := .NEXT, confidence := 9/10 })]).1.delay ≤ 30000) :=
  ⟨analyzeLoop_backoff.1 0 _ initALState rfl,
   analyzeLoop_backoff.2.1 0 _ { initALState with delay := 24000 } rfl,
   analyzeLoop_backoff.2.2 initALState _ (by decide) (by decide)⟩

/-- C5 counterexample: the analyzeLoop result handler (WebcamHandler.tsx
lines 461-531) contains no liveness or mounted check after the awaited
classifier call, so the identical computation runs whenever the call
resolves — including after the detector has been deactivated — and at
this concrete late-resolving result it both changes the UI-facing
detection state and invokes the action callback, refuting the claim for
the remote variant. -/
theorem analyzeLoop_late_result_applied :
    (analyzeLoopStep 5000 ({ action := .NEXT, confidence := 9/10 } : DetectionResultA)
        initALState).2 = some GestureAction.NEXT ∧
    (analyzeLoopStep 5000 ({ action := .NEXT, confidence := 9/10 } : DetectionResultA)
        initALState).1.detection ≠ initALState.detection := by
  decide

/-- C5 (amended): in the local-model variant, the detection loop checks
isMountedRef immediately after the classifier call resolves
(WebcamHandler.tsx line 133), so a result arriving after unmount leaves
the handler state exactly at its pre-teardown value and never invokes the
action callback; the remote analyzeLoop variant has no such guard and
applies late results unconditionally. -/
theorem detectionLoop_unmounted_noop :
    ∀ (m : HandGesture → Option GestureAction) (now : Int)
      (r : DetectionResult) (s : WHState),
      detectionLoopStep m false now r s = (s, none) := by
  intro m now r s
  simp [detectionLoopStep]

/-- C6 counterexample: with `lastDetectionTimeRef` at 0, animation-frame
ticks at t = 200 and t = 360 both pass the 150 ms throttle and invoke the
classifier, yet when a classifier call takes 400 ms the call issued at
200 is still outstanding at 360: the loop issues a second overlapping
call instead of skipping the tick. -/
theorem detectionLoop_overlapping_calls :
    issueTimes 0 [200, 360] = [200, 360] ∧
    overlapFreeB 400 (issueTimes 0 [200, 360]) = false := by
  decide

/-- C6 (amended): the local-variant loop enforces only a time throttle,
not an in-flight guard: every pair of successive classifier invocations it
issues is at least 150 ms apart (a tick closer than 150 ms to the last
processed one is skipped), and nothing prevents a new invocation while a
call older than 150 ms is still outstanding. -/
theorem detectionLoop_throttle_spacing :
    ∀ (ticks : List Int) (last : Int), spacedB last (issueTimes last ticks) = true := by
  intro ticks
  induction ticks with
  | nil => intro last; simp [issueTimes, spacedB]
  | cons t ts ih =>
    intro last
    by_cases h : t - last < 150
    · simp [issueTimes, h, ih last]
    · simp [issueTimes, h, spacedB, not_lt.mp h, ih t]

/-- A concrete paused application state used in the pause-semantics
counterexample and witness. -/
def pausedAppState : AppState :=
  { currentSlideIndex := 0, numSlides := 3, isPaused := true, volume := 50,
    showVolume := false, isDarkMode := true, zoomLevel := 1, isFullScreenMode := false }

/-- C7 counterexample: dispatching PAUSE while already paused does not
toggle the paused flag — handleGesture sets it to true (App.tsx line 143)
and the player stays paused instead of resuming. -/
theorem handleGesture_pause_not_toggle :
    (handleGesture GestureAction.PAUSE pausedAppState).isPaused ≠ !pausedAppState.isPaused := by
  decide

/-- C7 (amended): dispatching PAUSE always sets the paused flag to true
(pausing when unpaused and leaving an already paused player paused);
while paused, every other dispatched action leaves the whole player state
unchanged, and so does a repeated PAUSE; resuming happens through the
Escape key handler (or the on-screen button), which clears the flag. -/
theorem pause_dispatch_semantics :
    (∀ s : AppState, (handleGesture GestureAction.PAUSE s).isPaused = true) ∧
    (∀ (s : AppState) (a : GestureAction), s.isPaused = true →
        a ≠ GestureAction.PAUSE → handleGesture a s = s) ∧
    (∀ s : AppState, s.isPaused = true → handleGesture GestureAction.PAUSE s = s) ∧
    (∀ s : AppState, s.isPaused = true → (handleKeyDown "Escape" s).isPaused = false) := by
  refine ⟨?_, ?_, ?_, ?_⟩
  · intro s
    simp [handleGesture]
  · intro s a hp ha
    simp [handleGesture, ha, hp]
  · intro s hp
    obtain ⟨i, n, p, v, sv, d, z, f⟩ := s
    simp at hp
    simp [handleGesture, hp]
  · intro s hp
    simp [handleKeyDown, hp]

/-- Witness for C7 (amended) at the concrete paused state. -/
theorem pause_dispatch_semantics_witness :
    (handleGesture GestureAction.PAUSE pausedAppState).isPaused = true ∧
    handleGesture GestureAction.NEXT pausedAppState = pausedAppState ∧
    handleGesture GestureAction.PAUSE pausedAppState = pausedAppState ∧
    (handleKeyDown "Escape" pausedAppState).isPaused = false :=
  ⟨pause_dispatch_semantics.1 pausedAppState,
   pause_dispatch_semantics.2.1 pausedAppState GestureAction.NEXT rfl (by decide),
   pause_dispatch_semantics.2.2.1 pausedAppState rfl,
   pause_dispatch_semantics.2.2.2 pausedAppState rfl⟩

/-- C8: the mapping lookup used by the detection loop is total — for every
gesture label and every (possibly partial or corrupted) mapping it yields
exactly one action, the NONE action whenever the label is absent — and a
detection whose looked-up action is NONE never reaches the dispatch call:
the step returns no action to the callback. -/
theorem mapping_total_lookup :
    (∀ (m : HandGesture → Option GestureAction) (g : HandGesture),
        ∃! a : GestureAction, lookupMapping m g = a) ∧
    (∀ (m : HandGesture → Option GestureAction) (g : HandGesture),
        m g = none → lookupMapping m g = GestureAction.NONE) ∧
    (∀ (m : HandGesture → Option GestureAction) (mounted : Bool) (now : Int)
        (r : DetectionResult) (s : WHState),
        lookupMapping m r.gesture = GestureAction.NONE →
        (detectionLoopStep m mounted now r s).2 = none) := by
  refine ⟨?_, ?_, ?_⟩
  · intro m g
    exact ⟨lookupMapping m g, rfl, fun a ha => ha.symm⟩
  · intro m g h
    simp [lookupMapping, h]
  · intro m mounted now r s h
    cases mounted
    · simp [detectionLoopStep]
    · simp only [detectionLoopStep, h]
      split
      · rfl
      split
      · rfl
      split
      · rfl
      split
      · rfl
      split
      · simp
      · rfl

/-- Witness for C8 at a mapping with a missing entry: the lookup falls
back to NONE and a thumb-up detection against it dispatches nothing. -/
theorem mapping_total_lookup_witness :
    (∃! a : GestureAction, lookupMapping (fun _ => none) HandGesture.THUMB_UP = a) ∧
    lookupMapping (fun _ => none) HandGesture.THUMB_UP = GestureAction.NONE ∧
    (detectionLoopStep (fun _ => none) true 0
        ({ gesture := .THUMB_UP, confidence := 9/10 } : DetectionResult) freshWHState).2 = none :=
  ⟨mapping_total_lookup.1 (fun _ => none) HandGesture.THUMB_UP,
   mapping_total_lookup.2.1 (fun _ => none) HandGesture.THUMB_UP rfl,
   mapping_total_lookup.2.2 (fun _ => none) true 0
     { gesture := .THUMB_UP, confidence := 9/10 } freshWHState rfl⟩

lemma foldl_min_le_init (f : Landmark → Rat) :
    ∀ (ps : List Landmark) (a : Rat), ps.foldl (fun acc q => min acc (f q)) a ≤ a := by
  intro ps
  induction ps with
  | nil => intro a; simp
  | cons p ps ih =>
    intro a
    exact le_trans (ih (min a (f p))) (min_le_left _ _)

lemma init_le_foldl_max (f : Landmark → Rat) :
    ∀ (ps : List Landmark) (a : Rat), a ≤ ps.foldl (fun acc q => max acc (f q)) a := by
  intro ps
  induction ps with
  | nil => intro a; simp
  | cons p ps ih =>
    intro a
    exact le_trans (le_max_left _ _) (ih (max a (f p)))

lemma le_foldl_min (f : Landmark → Rat) (c : Rat) :
    ∀ (ps : List Landmark) (a : Rat), c ≤ a → (∀ q ∈ ps, c ≤ f q) →
      c ≤ ps.foldl (fun acc q => min acc (f q)) a := by
  intro ps
  induction ps with
  | nil => intro a ha _; simpa using ha
  | cons p ps ih =>
    intro a ha h
    exact ih (min a (f p)) (le_min ha (h p (by simp))) (fun q hq => h q (by simp [hq]))

lemma foldl_max_le (f : Landmark → Rat) (c : Rat) :
    ∀ (ps : List Landmark) (a : Rat), a ≤ c → (∀ q ∈ ps, f q ≤ c) →
      ps.foldl (fun acc q => max acc (f q)) a ≤ c := by
  intro ps
  induction ps with
  | nil => intro a ha _; simpa using ha
  | cons p ps ih =>
    intro a ha h
    exact ih (max a (f p)) (max_le ha (h p (by simp))) (fun q hq => h q (by simp [hq]))

/-- C9: every bounding box identifyGesture returns — computed as the
componentwise min/max of the normalized landmark coordinates of the first
detected hand — is well-formed: when the landmark coordinates lie in
[0, 1] (the normalized range the recognizer contract provides), the box
satisfies 0 ≤ xmin ≤ xmax ≤ 1 and 0 ≤ ymin ≤ ymax ≤ 1. -/
theorem boundingBox_normalized
    (res : RecognizerResults) (bb : BoundingBox)
    (herr : (identifyGestureCore res).error = none)
    (hbb : (identifyGestureCore res).boundingBox = some bb)
    (hnorm : ∀ pts ∈ res.landmarks, ∀ p ∈ pts,
        0 ≤ p.x ∧ p.x ≤ 1 ∧ 0 ≤ p.y ∧ p.y ≤ 1) :
    0 ≤ bb.xmin ∧ bb.xmin ≤ bb.xmax ∧ bb.xmax ≤ 1 ∧
    0 ≤ bb.ymin ∧ bb.ymin ≤ bb.ymax ∧ bb.ymax ≤ 1 := by
  obtain ⟨gs, lms⟩ := res
  match gs with
  | [] => simp [identifyGestureCore] at hbb
  | [] :: _ => simp [identifyGestureCore] at hbb
  | (c :: cs) :: rest =>
    by_cases hs : c.score < 1/2
    · rw [show identifyGestureCore { gestures := (c :: cs) :: rest, landmarks := lms } =
          { action := GestureAction.NONE, confidence := c.score, boundingBox := none,
            error := none } by dsimp only [identifyGestureCore]; rw [if_pos hs]] at hbb
      simp at hbb
    · rw [show identifyGestureCore { gestures := (c :: cs) :: rest, landmarks := lms } =
          { action := actionOfName c.categoryName, confidence := c.score,
            boundingBox := match lms.head? with
                           | some pts => bboxOfLandmarks pts
                           | none => none,
            error := none } by dsimp only [identifyGestureCore]; rw [if_neg hs]] at hbb
      match lms, hnorm with
      | [], _ => simp at hbb
      | pts :: lrest, hnorm =>
        have hpts : ∀ p ∈ pts, 0 ≤ p.x ∧ p.x ≤ 1 ∧ 0 ≤ p.y ∧ p.y ≤ 1 :=
          hnorm pts (by simp)
        match pts, hpts with
        | [], _ => simp [bboxOfLandmarks] at hbb
        | p :: ps, hpts =>
          simp only [List.head?_cons, bboxOfLandmarks, Option.some.injEq] at hbb
          have hp := hpts p (by simp)
          have hps : ∀ q ∈ ps, 0 ≤ q.x ∧ q.x ≤ 1 ∧ 0 ≤ q.y ∧ q.y ≤ 1 :=
            fun q hq => hpts q (by simp [hq])
          subst hbb
          refine ⟨?_, ?_, ?_, ?_, ?_, ?_⟩
          · exact le_foldl_min (fun q => q.x) 0 ps p.x hp.1 (fun q hq => (hps q hq).1)
          · exact le_trans (foldl_min_le_init (fun q => q.x) ps p.x)
              (init_le_foldl_max (fun q => q.x) ps p.x)
          · exact foldl_max_le (fun q => q.x) 1 ps p.x hp.2.1 (fun q hq => (hps q hq).2.1)
          · exact le_foldl_min (fun q => q.y) 0 ps p.y hp.2.2.1 (fun q hq => (hps q hq).2.2.1)
          · exact le_trans (foldl_min_le_init (fun q => q.y) ps p.y)
              (init_le_foldl_max (fun q => q.y) ps p.y)
          · exact foldl_max_le (fun q => q.y) 1 ps p.y hp.2.2.2 (fun q hq => (hps q hq).2.2.2)

/-- Witness for C9 at a concrete one-landmark hand with normalized
coordinates. -/
theorem boundingBox_normalized_witness :
    0 ≤ ({ xmin := 3/10, xmax := 3/10, ymin := 1/10, ymax := 1/10 } : BoundingBox).xmin ∧
    ({ xmin := 3/10, xmax := 3/10, ymin := 1/10, ymax := 1/10 } : BoundingBox).xmin ≤
      ({ xmin := 3/10, xmax := 3/10, ymin := 1/10, ymax := 1/10 } : BoundingBox).xmax ∧
    ({ xmin := 3/10, xmax := 3/10, ymin := 1/10, ymax := 1/10 } : BoundingBox).xmax ≤ 1 ∧
    0 ≤ ({ xmin := 3/10, xmax := 3/10, ymin := 1/10, ymax := 1/10 } : BoundingBox).ymin ∧
    ({ xmin := 3/10, xmax := 3/10, ymin := 1/10, ymax := 1/10 } : BoundingBox).ymin ≤
      ({ xmin := 3/10, xmax := 3/10, ymin := 1/10, ymax := 1/10 } : BoundingBox).ymax ∧
    ({ xmin := 3/10, xmax := 3/10, ymin := 1/10, ymax := 1/10 } : BoundingBox).ymax ≤ 1 := by
  have hcore : identifyGestureCore
      { gestures := [[{ categoryName := "Thumb_Up", score := 9/10 }]],
        landmarks := [[{ x := 3/10, y := 1/10 }]] } =
      { action := GestureAction.NEXT, confidence := 9/10,
        boundingBox := some { xmin := 3/10, xmax := 3/10, ymin := 1/10, ymax := 1/10 },
        error := none } := by
    dsimp only [identifyGestureCore, bboxOfLandmarks, List.head?_cons, List.foldl_nil]
    rw [if_neg (by norm_num)]
    rfl
  have hnorm : ∀ pts ∈ ([[{ x := 3/10, y := 1/10 }]] : List (List Landmark)),
      ∀ p ∈ pts, 0 ≤ p.x ∧ p.x ≤ 1 ∧ 0 ≤ p.y ∧ p.y ≤ 1 := by
    intro pts hpts p hp
    simp only [List.mem_singleton] at hpts
    subst hpts
    simp only [List.mem_singleton] at hp
    subst hp
    refine ⟨by norm_num, by norm_num, by norm_num, by norm_num⟩
  exact boundingBox_normalized
    { gestures := [[{ categoryName := "Thumb_Up", score := 9/10 }]],
      landmarks := [[{ x := 3/10, y := 1/10 }]] }
    { xmin := 3/10, xmax := 3/10, ymin := 1/10, ymax := 1/10 }
    (by rw [hcore]) (by rw [hcore]) hnorm

lemma handleGesture_index_bounds (a : GestureAction) (s : AppState)
    (hlen : 1 ≤ s.numSlides) (hlo : 0 ≤ s.currentSlideIndex)
    (hhi : s.currentSlideIndex ≤ s.numSlides - 1) :
    (handleGesture a s).numSlides = s.numSlides ∧
    0 ≤ (handleGesture a s).currentSlideIndex ∧
    (handleGesture a s).currentSlideIndex ≤ s.numSlides - 1 := by
  by_cases hp : s.isPaused <;>
    cases a <;>
      simp [handleGesture, nextSlide, prevSlide, handleVolume, toggleTheme, hp] <;>
        omega

/-- C10: starting from any valid index into a non-empty slide list, any
sequence of dispatched navigation actions keeps the current slide index
within [0, numSlides - 1]; NEXT and SPACE at the last slide and PREV at
the first slide leave the index unchanged instead of wrapping or going
out of range. -/
theorem slide_index_bounds
    (s : AppState) (acts : List GestureAction)
    (hlen : 1 ≤ s.numSlides) (hlo : 0 ≤ s.currentSlideIndex)
    (hhi : s.currentSlideIndex ≤ s.numSlides - 1) :
    ((runGestures s acts).numSlides = s.numSlides ∧
     0 ≤ (runGestures s acts).currentSlideIndex ∧
     (runGestures s acts).currentSlideIndex ≤ s.numSlides - 1) ∧
    (s.currentSlideIndex = s.numSlides - 1 →
       (handleGesture GestureAction.NEXT s).currentSlideIndex = s.currentSlideIndex ∧
       (handleGesture GestureAction.SPACE s).currentSlideIndex = s.currentSlideIndex) ∧
    (s.currentSlideIndex = 0 →
       (handleGesture GestureAction.PREV s).currentSlideIndex = 0) := by
  refine ⟨?_, ?_, ?_⟩
  · induction acts generalizing s with
    | nil => exact ⟨rfl, hlo, hhi⟩
    | cons a acts ih =>
      obtain ⟨hn, hl, hh⟩ := handleGesture_index_bounds a s hlen hlo hhi
      have hrun : runGestures s (a :: acts) = runGestures (handleGesture a s) acts := rfl
      rw [hrun]
      obtain ⟨hn', hl', hh'⟩ := ih (handleGesture a s) (hn ▸ hlen) hl (hn ▸ hh)
      exact ⟨hn'.trans hn, hl', hn ▸ hh'⟩
  · intro hlast
    by_cases hp : s.isPaused <;>
      constructor <;> simp [handleGesture, nextSlide, hp] <;> omega
  · intro hfirst
    by_cases hp : s.isPaused <;> simp [handleGesture, prevSlide, hp] <;> omega

/-- Witness for C10: from index 1 of a 3-slide deck the run NEXT, NEXT,
SPACE, PREV stays in range, NEXT and SPACE at the last slide stay put,
and PREV at the first slide stays put. -/
theorem slide_index_bounds_witness :
    ((runGestures { pausedAppState with isPaused := false, currentSlideIndex := 1 }
        [GestureAction.NEXT, GestureAction.NEXT, GestureAction.SPACE,
         GestureAction.PREV]).numSlides = 3 ∧
     0 ≤ (runGestures { pausedAppState with isPaused := false, currentSlideIndex := 1 }
        [GestureAction.NEXT, GestureAction.NEXT, GestureAction.SPACE,
         GestureAction.PREV]).currentSlideIndex ∧
     (runGestures { pausedAppState with isPaused := false, currentSlideIndex := 1 }
        [GestureAction.NEXT, GestureAction.NEXT, GestureAction.SPACE,
         GestureAction.PREV]).currentSlideIndex ≤ 2) ∧
    (handleGesture GestureAction.PREV
      { pausedAppState with isPaused := false, currentSlideIndex := 0 }).currentSlideIndex = 0 := by
  have h1 := slide_index_bounds { pausedAppState with isPaused := false, currentSlideIndex := 1 }
    [GestureAction.NEXT, GestureAction.NEXT, GestureAction.SPACE, GestureAction.PREV]
    (by decide) (by decide) (by decide)
  have h2 := slide_index_bounds { pausedAppState with isPaused := false, currentSlideIndex := 0 }
    [] (by decide) (by decide) (by decide)
  exact ⟨⟨h1.1.1, h1.1.2.1, h1.1.2.2⟩, h2.2.2 rfl⟩
